import Mathlib

/-!
Verification of the page-interaction controller in src/js/main.js of the
koku-kitchen site: mobile menu toggling, scroll-effect throttling, active
navigation highlighting, smooth anchor scrolling and resize debouncing.
Each section embeds one part of the script as executable Lean definitions
and proves (or refutes) the corresponding behavioral claims.
-/

/-! ## Menu state (src/js/main.js lines 9-44)

Observable state touched by `toggleMenu` and `closeMenu`: the `active`
class on the nav-links panel and on the toggle control, the
`aria-expanded` attribute of the toggle (`none` models an absent
attribute, `some v` an attribute with value `v`), and the inline
`overflow` style of the document body. -/

structure MenuState where
  navActive : Bool
  toggleActive : Bool
  ariaExpanded : Option String
  bodyOverflow : String
deriving DecidableEq

/-- `toggleMenu` (main.js:20-34): `classList.toggle('active')` on the panel
and the toggle, then `aria-expanded` is assigned the stringified new panel
state and the body overflow becomes `hidden` exactly when the menu is now
open (the JS boolean `isExpanded` coerces to the strings `"true"`/`"false"`
in `setAttribute`). -/
def toggleMenu (s : MenuState) : MenuState :=
  let isExpanded := !s.navActive
  { navActive := !s.navActive
    toggleActive := !s.toggleActive
    ariaExpanded := some (if isExpanded then "true" else "false")
    bodyOverflow := if isExpanded then "hidden" else "" }

/-- `closeMenu` (main.js:39-44): removes the `active` class from both
elements, writes `aria-expanded="false"` and clears the body overflow. -/
def closeMenu (s : MenuState) : MenuState :=
  { s with
    navActive := false
    toggleActive := false
    ariaExpanded := some "false"
    bodyOverflow := "" }

/-- Nav-link click listener (main.js:52-58): closes the menu when the
viewport is at or below the 768px mobile breakpoint. -/
def navLinkClickMenu (width : Int) (s : MenuState) : MenuState :=
  if width ≤ 768 then closeMenu s else s

/-- Outside-click listener, menu part (main.js:61-70): at mobile width, a
click that is neither inside the panel nor on the toggle closes an open
menu. The source nests the width test around the other three conditions;
both else-paths leave the state unchanged, so they are flattened into one
conjunction here. -/
def outsideClickMenu (width : Int) (insideNav onToggle : Bool) (s : MenuState) : MenuState :=
  if width ≤ 768 ∧ insideNav = false ∧ onToggle = false ∧ s.navActive = true then closeMenu s
  else s

/-- Escape-key listener, menu part (main.js:246-250). -/
def escapeMenu (key : String) (s : MenuState) : MenuState :=
  if key = "Escape" ∧ s.navActive = true then closeMenu s else s

/-- Resize listener, menu part (main.js:204-208): closes an open menu when
the viewport exceeds the mobile breakpoint. -/
def resizeMenu (width : Int) (s : MenuState) : MenuState :=
  if 768 < width ∧ s.navActive = true then closeMenu s else s

/-- The spec's synchronization invariant: never open without
`aria-expanded="true"` and the scroll-lock applied, never closed with
either of those still in effect. -/
def menuInv (s : MenuState) : Prop :=
  (s.navActive = true → s.ariaExpanded = some "true" ∧ s.bodyOverflow = "hidden") ∧
  (s.navActive = false → s.ariaExpanded ≠ some "true" ∧ s.bodyOverflow ≠ "hidden")

instance (s : MenuState) : Decidable (menuInv s) := by
  unfold menuInv
  infer_instance

/-- The fully closed menu configuration: exactly the observable state that
`closeMenu` leaves behind. -/
def menuClosedState (s : MenuState) : Prop :=
  s.navActive = false ∧ s.toggleActive = false ∧
    s.ariaExpanded = some "false" ∧ s.bodyOverflow = ""

/-- C4 counterexample: from a state whose `aria-expanded` attribute is
absent (a fresh page with the menu closed), toggling twice does not
restore the original state — the attribute ends up set to `"false"`
instead of absent, so the claim fails for this starting DOM state. -/
theorem C4_counterexample :
    toggleMenu (toggleMenu ⟨false, false, none, ""⟩) ≠ (⟨false, false, none, ""⟩ : MenuState) := by
  decide

/-- C4 (amended): on every starting state whose `aria-expanded` attribute
and body overflow already agree with the panel's `active` class, applying
the menu toggle twice restores all observable menu state. -/
theorem C4_toggle_involutive_amended (s : MenuState)
    (ha : s.ariaExpanded = some (if s.navActive then "true" else "false"))
    (ho : s.bodyOverflow = if s.navActive then "hidden" else "") :
    toggleMenu (toggleMenu s) = s := by
  cases s with
  | mk n t a o => cases n <;> simp_all [toggleMenu]

/-- C4 witness: the amended theorem applied at the synchronized closed
state. -/
theorem C4_toggle_involutive_amended_witness :
    toggleMenu (toggleMenu ⟨false, false, some "false", ""⟩) =
      (⟨false, false, some "false", ""⟩ : MenuState) :=
  C4_toggle_involutive_amended ⟨false, false, some "false", ""⟩ rfl rfl

/-- C5: the synchronization invariant between the menu-open flag and its
side effects is preserved by every menu operation: toggle, close, and the
outside-click, Escape, resize and nav-link-click close paths. -/
theorem C5_menu_sync_invariant (s : MenuState) (h : menuInv s) :
    menuInv (toggleMenu s) ∧ menuInv (closeMenu s) ∧
    (∀ w : Int, ∀ insideNav onToggle : Bool, menuInv (outsideClickMenu w insideNav onToggle s)) ∧
    (∀ k : String, menuInv (escapeMenu k s)) ∧
    (∀ w : Int, menuInv (resizeMenu w s)) ∧
    (∀ w : Int, menuInv (navLinkClickMenu w s)) := by
  have hclose : menuInv (closeMenu s) := by simp [menuInv, closeMenu]
  have htoggle : menuInv (toggleMenu s) := by
    cases hn : s.navActive <;> simp [menuInv, toggleMenu, hn]
  refine ⟨htoggle, hclose, ?_, ?_, ?_, ?_⟩
  · intro w insideNav onToggle
    unfold outsideClickMenu
    split
    · exact hclose
    · exact h
  · intro k
    unfold escapeMenu
    split
    · exact hclose
    · exact h
  · intro w
    unfold resizeMenu
    split
    · exact hclose
    · exact h
  · intro w
    unfold navLinkClickMenu
    split
    · exact hclose
    · exact h

/-- C5 witness: invariant preservation applied at the synchronized closed
state under the toggle operation. -/
theorem C5_menu_sync_invariant_witness :
    menuInv (toggleMenu ⟨false, false, some "false", ""⟩) :=
  (C5_menu_sync_invariant ⟨false, false, some "false", ""⟩ (by decide)).1

/-- C8 counterexample: a state with the menu-open flag false (menu closed)
but the `aria-expanded` attribute still absent. `closeMenu` writes
`aria-expanded="false"`, so it is not a no-op on this already-closed
state. -/
theorem C8_counterexample :
    (⟨false, false, none, ""⟩ : MenuState).navActive = false ∧
    closeMenu ⟨false, false, none, ""⟩ ≠ (⟨false, false, none, ""⟩ : MenuState) := by
  decide

/-- C8 (amended): `close` composed with `close` always equals a single
`close`, and `close` is a literal no-op exactly on the fully closed
configuration (the state a previous close leaves behind). -/
theorem C8_close_idempotent_amended :
    (∀ s : MenuState, closeMenu (closeMenu s) = closeMenu s) ∧
    (∀ s : MenuState, menuClosedState s → closeMenu s = s) := by
  constructor
  · intro s
    rfl
  · intro s hs
    obtain ⟨h1, h2, h3, h4⟩ := hs
    cases s
    simp_all [closeMenu]

/-- C8 witness: the amended no-op statement applied at the fully closed
state. -/
theorem C8_close_idempotent_amended_witness :
    closeMenu ⟨false, false, some "false", ""⟩ = (⟨false, false, some "false", ""⟩ : MenuState) :=
  C8_close_idempotent_amended.2 ⟨false, false, some "false", ""⟩ ⟨rfl, rfl, rfl, rfl⟩

/-! ## Element presence layer (src/js/main.js lines 9-12, 47-96, 203-215, 246-250)

The script looks up `menuToggle`, `navLinks` and `header` once; each may be
absent (`getElementById` returning null). A handler that dereferences an
absent element throws a TypeError; this is modelled by the handler
returning `none`. Only the attachment of the toggle-click listener
(main.js:47-49) is guarded by an existence check. -/

structure Dom where
  navLinksPresent : Bool
  menuTogglePresent : Bool
  headerPresent : Bool
  menu : MenuState
  headerScrolled : Bool
deriving DecidableEq

/-- `closeMenu` under element presence (main.js:39-44): it dereferences
`navLinks` first, then `menuToggle`; either being absent throws. -/
def closeMenuH (d : Dom) : Option Dom :=
  if d.navLinksPresent = true then
    if d.menuTogglePresent = true then some { d with menu := closeMenu d.menu }
    else none
  else none

/-- `toggleMenu` under element presence (main.js:20-34): dereferences
`navLinks` first, then `menuToggle`. -/
def toggleH (d : Dom) : Option Dom :=
  if d.navLinksPresent = true then
    if d.menuTogglePresent = true then some { d with menu := toggleMenu d.menu }
    else none
  else none

/-- `handleScroll` (main.js:78-84): toggles the header's `scrolled` class
from the scroll offset; dereferences `header` unconditionally. -/
def handleScrollH (scrollY : Int) (d : Dom) : Option Dom :=
  if d.headerPresent = true then some { d with headerScrolled := decide (100 < scrollY) }
  else none

/-- Outside-click listener (main.js:61-70): at mobile width it evaluates
`navLinks.contains` then `menuToggle.contains` before the close decision,
so either element being absent throws there; at desktop width the body is
skipped entirely. -/
def outsideClickH (width : Int) (insideNav onToggle : Bool) (d : Dom) : Option Dom :=
  if width ≤ 768 then
    if d.navLinksPresent = true then
      if d.menuTogglePresent = true then
        if insideNav = false ∧ onToggle = false ∧ d.menu.navActive = true then closeMenuH d
        else some d
      else none
    else none
  else some d

/-- Escape listener (main.js:246-250): the JS `&&` short-circuits, so a
non-Escape key never dereferences `navLinks`. -/
def escapeH (key : String) (d : Dom) : Option Dom :=
  if key = "Escape" then
    if d.navLinksPresent = true then
      if d.menu.navActive = true then closeMenuH d else some d
    else none
  else some d

/-- Resize listener, menu part (main.js:204-208): the width test
short-circuits, so `navLinks` is only dereferenced past the breakpoint. -/
def resizeH (width : Int) (d : Dom) : Option Dom :=
  if 768 < width then
    if d.navLinksPresent = true then
      if d.menu.navActive = true then closeMenuH d else some d
    else none
  else some d

/-- C3 counterexample: with the nav-links panel absent, a click at mobile
width makes the outside-click listener evaluate `navLinks.contains` on
null and it throws (`none`) instead of performing a defensive no-op. -/
theorem C3_counterexample :
    outsideClickH 500 false false ⟨false, true, true, ⟨false, false, none, ""⟩, false⟩ = none := by
  decide

/-- C3 (amended): only the attachment of the toggle-click listener is
guarded by an existence check. The outside-click (mobile width), scroll,
Escape (with the Escape key) and resize (past the breakpoint) handlers,
and the toggle/close operations themselves, reach an error state when the
element they dereference is absent; all handlers succeed when all three
elements are present. -/
theorem C3_handlers_amended :
    (∀ d : Dom, d.navLinksPresent = false →
      ∀ w : Int, ∀ i o : Bool, w ≤ 768 → outsideClickH w i o d = none) ∧
    (∀ d : Dom, d.headerPresent = false → ∀ y : Int, handleScrollH y d = none) ∧
    (∀ d : Dom, d.navLinksPresent = false → escapeH "Escape" d = none) ∧
    (∀ d : Dom, d.navLinksPresent = false → ∀ w : Int, 768 < w → resizeH w d = none) ∧
    (∀ d : Dom, d.navLinksPresent = false → toggleH d = none ∧ closeMenuH d = none) ∧
    (∀ d : Dom, d.navLinksPresent = true → d.menuTogglePresent = true → d.headerPresent = true →
      (∀ w : Int, ∀ i o : Bool, (outsideClickH w i o d).isSome = true) ∧
      (∀ y : Int, (handleScrollH y d).isSome = true) ∧
      (∀ k : String, (escapeH k d).isSome = true) ∧
      (∀ w : Int, (resizeH w d).isSome = true) ∧
      (toggleH d).isSome = true ∧ (closeMenuH d).isSome = true) := by
  refine ⟨?_, ?_, ?_, ?_, ?_, ?_⟩
  · intro d hd w i o hw
    simp [outsideClickH, hd, hw]
  · intro d hd y
    simp [handleScrollH, hd]
  · intro d hd
    simp [escapeH, hd]
  · intro d hd w hw
    simp [resizeH, hd, hw]
  · intro d hd
    exact ⟨by simp [toggleH, hd], by simp [closeMenuH, hd]⟩
  · intro d h1 h2 h3
    refine ⟨?_, ?_, ?_, ?_, ?_, ?_⟩
    · intro w i o
      unfold outsideClickH closeMenuH
      split_ifs <;> simp_all
    · intro y
      simp [handleScrollH, h3]
    · intro k
      unfold escapeH closeMenuH
      split_ifs <;> simp_all
    · intro w
      unfold resizeH closeMenuH
      split_ifs <;> simp_all
    · simp [toggleH, h1, h2]
    · simp [closeMenuH, h1, h2]

/-- C3 witness: the scroll handler applied where the header is absent. -/
theorem C3_handlers_amended_witness :
    handleScrollH 0 ⟨true, true, false, ⟨false, false, none, ""⟩, false⟩ = none :=
  C3_handlers_amended.2.1 ⟨true, true, false, ⟨false, false, none, ""⟩, false⟩ rfl 0

/-! ## Active navigation highlight (src/js/main.js lines 136-154)

`updateActiveNav` scans every `section[id]`; for each section whose
vertical span contains `scrollY + 150` it rewrites every nav link's
`active` class to `href = "#" ++ id`. Sections are modelled by their id
and box metrics, links by `(href, active)` pairs. -/

structure SectionEl where
  id : String
  offsetTop : Int
  offsetHeight : Int
deriving DecidableEq

/-- The span test of main.js:145: `scrollPos >= top && scrollPos < top + height`. -/
def sectContains (sec : SectionEl) (pos : Int) : Bool :=
  decide (sec.offsetTop ≤ pos) && decide (pos < sec.offsetTop + sec.offsetHeight)

abbrev NavLink := String × Bool

/-- Inner loop of main.js:146-151: every link first loses `active`, then
the link whose href equals `"#" ++ id` gains it; per link the net effect
is `active := (href = "#" ++ id)`. -/
def markLinks (sid : String) (links : List NavLink) : List NavLink :=
  links.map fun l => (l.1, l.1 == "#" ++ sid)

/-- `updateActiveNav` (main.js:136-154) as a fold over the section list in
document order. -/
def updateActiveNav (sections : List SectionEl) (scrollY : Int) (links : List NavLink) :
    List NavLink :=
  let scrollPos := scrollY + 150
  sections.foldl (fun ls sec => if sectContains sec scrollPos then markLinks sec.id ls else ls)
    links

theorem markLinks_markLinks (sid tid : String) (links : List NavLink) :
    markLinks tid (markLinks sid links) = markLinks tid links := by
  induction links with
  | nil => rfl
  | cons l ls ih =>
    show (l.1, l.1 == "#" ++ tid) :: markLinks tid (markLinks sid ls) =
      (l.1, l.1 == "#" ++ tid) :: markLinks tid ls
    exact congrArg _ ih

/-- One run of `updateActiveNav` is determined by the last section in
document order whose span contains the probe position: if none matches the
links are returned unchanged, otherwise every link's `active` class is
rewritten from that section's id. -/
theorem updateActiveNav_eq_getLast (sections : List SectionEl) (scrollY : Int)
    (links : List NavLink) :
    updateActiveNav sections scrollY links =
      match (sections.filter fun s => sectContains s (scrollY + 150)).getLast? with
      | none => links
      | some m => markLinks m.id links := by
  induction sections generalizing links with
  | nil => rfl
  | cons s rest ih =>
    have hstep : updateActiveNav (s :: rest) scrollY links =
        updateActiveNav rest scrollY
          (if sectContains s (scrollY + 150) then markLinks s.id links else links) := rfl
    rw [hstep]
    by_cases hs : sectContains s (scrollY + 150) = true
    · rw [if_pos hs, ih,
        List.filter_cons_of_pos (p := fun u => sectContains u (scrollY + 150)) hs]
      cases hfr : (rest.filter fun u => sectContains u (scrollY + 150)) with
      | nil => rfl
      | cons b l =>
        rw [List.getLast?_cons_cons]
        cases hgl : (b :: l).getLast? with
        | none => simp at hgl
        | some m => simp [markLinks_markLinks]
    · rw [if_neg hs, List.filter_cons_of_neg (p := fun u => sectContains u (scrollY + 150)) hs]
      exact ih links

/-- With pairwise non-overlapping sections, a matching section is the only
element of the filtered list. -/
theorem filter_matching_single (sections : List SectionEl) (pos : Int)
    (hnov : sections.Pairwise fun a b =>
      ∀ q : Int, ¬(sectContains a q = true ∧ sectContains b q = true))
    (sec : SectionEl) (hmem : sec ∈ sections) (hc : sectContains sec pos = true) :
    (sections.filter fun s => sectContains s pos) = [sec] := by
  induction sections with
  | nil => cases hmem
  | cons s rest ih =>
    rw [List.pairwise_cons] at hnov
    obtain ⟨hs, hrest⟩ := hnov
    rcases List.mem_cons.mp hmem with heq | hmem2
    · subst heq
      rw [List.filter_cons_of_pos (p := fun u => sectContains u pos) hc]
      have hnone : (rest.filter fun s => sectContains s pos) = [] := by
        rw [List.filter_eq_nil_iff]
        intro b hb hbc
        exact hs b hb pos ⟨hc, hbc⟩
      rw [hnone]
    · have hsf : ¬(sectContains s pos = true) := fun hx => hs sec hmem2 pos ⟨hx, hc⟩
      rw [List.filter_cons_of_neg (p := fun u => sectContains u pos) hsf]
      exact ih hrest hmem2

theorem markLinks_filter_active (sid : String) (links : List NavLink) :
    ((markLinks sid links).filter fun l => l.2) =
      ((links.filter fun l => l.1 == "#" ++ sid).map fun l => (l.1, true)) := by
  induction links with
  | nil => rfl
  | cons l ls ih =>
    by_cases h : l.1 = "#" ++ sid
    · simp [markLinks, List.filter_cons, h] at ih ⊢
      exact ih
    · simp [markLinks, List.filter_cons, h] at ih ⊢
      exact ih

theorem filter_href_length_le_one (t : String) (links : List NavLink)
    (hnd : (links.map Prod.fst).Nodup) :
    (links.filter fun l => l.1 == t).length ≤ 1 := by
  induction links with
  | nil => simp
  | cons l ls ih =>
    simp only [List.map_cons, List.nodup_cons] at hnd
    by_cases h : l.1 = t
    · have hnil : (ls.filter fun x => x.1 == t) = [] := by
        rw [List.filter_eq_nil_iff]
        intro x hx hxt
        have hx1 : x.1 = t := by simpa using hxt
        have hmem : x.1 ∈ ls.map Prod.fst := List.mem_map_of_mem Prod.fst hx
        rw [hx1, ← h] at hmem
        exact hnd.1 hmem
      rw [List.filter_cons_of_pos (by simp [h]), hnil]
      simp
    · rw [List.filter_cons_of_neg (by simp [h])]
      exact ih hnd.2

/-- C1 counterexample: one section spanning [0, 10), scroll offset 1000, a
single link currently active. No section's span contains 1000 + 150, yet
the run leaves the link active — the claim's requirement that all links be
cleared when nothing matches fails. -/
theorem C1_counterexample :
    (∀ sec ∈ [SectionEl.mk "a" 0 10], sectContains sec (1000 + 150) = false) ∧
    updateActiveNav [SectionEl.mk "a" 0 10] 1000 [("#a", true)] = [("#a", true)] ∧
    ((updateActiveNav [SectionEl.mk "a" 0 10] 1000 [("#a", true)]).filter fun l => l.2).length
      = 1 := by
  decide

/-- C1 (amended): for non-overlapping sections, when no section's span
contains `scrollY + 150` the run leaves every link's active state
unchanged (it does not clear them); when some section's span contains it,
every link is rewritten so that exactly the link whose href names that
section is active, and — when the hrefs are distinct — at most one link is
active afterwards. -/
theorem C1_active_nav_amended (sections : List SectionEl) (scrollY : Int) (links : List NavLink)
    (hnov : sections.Pairwise fun a b =>
      ∀ q : Int, ¬(sectContains a q = true ∧ sectContains b q = true)) :
    ((∀ sec ∈ sections, sectContains sec (scrollY + 150) = false) →
      updateActiveNav sections scrollY links = links) ∧
    (∀ sec ∈ sections, sectContains sec (scrollY + 150) = true →
      updateActiveNav sections scrollY links = markLinks sec.id links) ∧
    ((links.map Prod.fst).Nodup →
      ∀ sec ∈ sections, sectContains sec (scrollY + 150) = true →
        ((updateActiveNav sections scrollY links).filter fun l => l.2).length ≤ 1) := by
  have hmark : ∀ sec ∈ sections, sectContains sec (scrollY + 150) = true →
      updateActiveNav sections scrollY links = markLinks sec.id links := by
    intro sec hmem hc
    rw [updateActiveNav_eq_getLast,
      filter_matching_single sections (scrollY + 150) hnov sec hmem hc]
    rfl
  refine ⟨?_, hmark, ?_⟩
  · intro hnone
    rw [updateActiveNav_eq_getLast]
    have hnil : (sections.filter fun s => sectContains s (scrollY + 150)) = [] := by
      rw [List.filter_eq_nil_iff]
      intro a ha hpa
      rw [hnone a ha] at hpa
      cases hpa
    rw [hnil]
    rfl
  · intro hnd sec hmem hc
    rw [hmark sec hmem hc, markLinks_filter_active, List.length_map]
    exact filter_href_length_le_one _ links hnd

/-- C1 witness: a single matching section marks exactly its own link. -/
theorem C1_active_nav_amended_witness :
    updateActiveNav [SectionEl.mk "a" 0 200] 0 [("#a", false), ("#b", true)] =
      markLinks "a" [("#a", false), ("#b", true)] :=
  (C1_active_nav_amended [SectionEl.mk "a" 0 200] 0 [("#a", false), ("#b", true)]
      (by simp)).2.1 (SectionEl.mk "a" 0 200) (by decide) (by decide)

/-- C9: when the non-overlap assumption is violated and two or more
sections' spans contain `scrollY + 150`, one run leaves active exactly the
link named by the last matching section in document order, because each
matching section rewrites all links. -/
theorem C9_overlap_last_match (sections : List SectionEl) (scrollY : Int) (links : List NavLink)
    (m : SectionEl)
    (hm : (sections.filter fun s => sectContains s (scrollY + 150)).getLast? = some m)
    (h2 : 2 ≤ (sections.filter fun s => sectContains s (scrollY + 150)).length) :
    updateActiveNav sections scrollY links = markLinks m.id links := by
  rw [updateActiveNav_eq_getLast, hm]

/-- C9 witness: two overlapping sections both containing the probe; the
second one's link wins. -/
theorem C9_overlap_last_match_witness :
    updateActiveNav [SectionEl.mk "a" 0 200, SectionEl.mk "b" 100 200] 0
        [("#a", true), ("#b", false)] =
      markLinks "b" [("#a", true), ("#b", false)] :=
  C9_overlap_last_match [SectionEl.mk "a" 0 200, SectionEl.mk "b" 100 200] 0
    [("#a", true), ("#b", false)] (SectionEl.mk "b" 100 200) (by decide) (by decide)

/-! ## Smooth anchor navigation and click dispatch (src/js/main.js lines 12, 52-58, 61-70, 105-128)

The smooth-scroll listener (main.js:105-128) and the mobile close-on-click
listener (main.js:52-58) are attached only to the anchors collected in
`navLinkItems` (main.js:12, anchors inside the nav-links panel). Clicks
bubble to the document-level outside-click listener (main.js:61-70)
afterwards. The document is modelled as a lookup from element id to
`offsetTop`; an anchor carries its href and whether it sits inside the
panel. -/

structure Anchor where
  href : String
  inNavLinks : Bool
deriving DecidableEq

/-- The fragment test and target-id extraction of main.js:110-111:
`href.startsWith('#')` guards, and `href.substring(1)` is the id looked
up. Both are combined on the underlying character list: a fragment href is
one beginning with the hash character, and its target id is the rest. -/
def fragmentTarget (href : String) : Option String :=
  match href.data with
  | '#' :: rest => some (String.mk rest)
  | _ => none

/-- Smooth-scroll click listener body (main.js:106-127): for a fragment
href whose target id exists, cancel default navigation and compute the
scroll target `targetElement.offsetTop - header.offsetHeight`; otherwise
do not intercept. Returns (scroll destination, defaultPrevented). -/
def smoothScrollClick (href : String) (doc : String → Option Int) (headerHeight : Int) :
    Option Int × Bool :=
  match fragmentTarget href with
  | some tid =>
    match doc tid with
    | some top => (some (top - headerHeight), true)
    | none => (none, false)
  | none => (none, false)

structure ClickOutcome where
  menu : MenuState
  defaultPrevented : Bool
  scrolledTo : Option Int
deriving DecidableEq

/-- Full dispatch of a click on an anchor. For an anchor inside the panel
the two attached listeners run in registration order (close-on-click,
main.js:52-58, then smooth-scroll, main.js:105-128), and the document
outside-click listener then sees `navLinks.contains(e.target)` true and
does nothing. For an anchor outside the panel neither attached listener
exists and only the document outside-click listener (main.js:61-70) runs,
with the click neither inside the panel nor on the toggle. -/
def clickAnchor (a : Anchor) (width : Int) (doc : String → Option Int) (headerHeight : Int)
    (s : MenuState) : ClickOutcome :=
  if a.inNavLinks = true then
    { menu := if width ≤ 768 then closeMenu s else s
      defaultPrevented := (smoothScrollClick a.href doc headerHeight).2
      scrolledTo := (smoothScrollClick a.href doc headerHeight).1 }
  else
    { menu := if width ≤ 768 ∧ s.navActive = true then closeMenu s else s
      defaultPrevented := false
      scrolledTo := none }

/-- C6: clicking a nav link with a fragment href cancels default
navigation and scrolls to exactly `offsetTop - headerHeight` when the
target id exists in the document, and does not intercept at all when it
does not. -/
theorem C6_smooth_scroll_click (a : Anchor) (width : Int) (doc : String → Option Int)
    (headerHeight : Int) (s : MenuState) (tid : String)
    (hin : a.inNavLinks = true) (hfrag : fragmentTarget a.href = some tid) :
    (∀ top : Int, doc tid = some top →
      (clickAnchor a width doc headerHeight s).defaultPrevented = true ∧
      (clickAnchor a width doc headerHeight s).scrolledTo = some (top - headerHeight)) ∧
    (doc tid = none →
      (clickAnchor a width doc headerHeight s).defaultPrevented = false ∧
      (clickAnchor a width doc headerHeight s).scrolledTo = none) := by
  constructor
  · intro top htop
    simp [clickAnchor, smoothScrollClick, hin, hfrag, htop]
  · intro hnone
    simp [clickAnchor, smoothScrollClick, hin, hfrag, hnone]

/-- C6 witness: a panel anchor to an existing section at offset 400 under
an 80-pixel header scrolls to 320 with default navigation cancelled. -/
theorem C6_smooth_scroll_click_witness :
    (clickAnchor ⟨"#menu", true⟩ 1000 (fun t => if t = "menu" then some 400 else none) 80
        ⟨false, false, some "false", ""⟩).defaultPrevented = true ∧
    (clickAnchor ⟨"#menu", true⟩ 1000 (fun t => if t = "menu" then some 400 else none) 80
        ⟨false, false, some "false", ""⟩).scrolledTo = some 320 :=
  (C6_smooth_scroll_click ⟨"#menu", true⟩ 1000 (fun t => if t = "menu" then some 400 else none)
      80 ⟨false, false, some "false", ""⟩ "menu" rfl (by decide)).1 400 (by decide)

/-- C10 counterexample: a click on a fragment link outside the panel, at
mobile width with the menu open, does change the menu state — the
document-level outside-click listener closes the menu — refuting the
claim's assertion that the menu state is unchanged. -/
theorem C10_counterexample :
    (clickAnchor ⟨"#menu", false⟩ 500 (fun _ => none) 80
        ⟨true, true, some "true", "hidden"⟩).menu ≠
      (⟨true, true, some "true", "hidden"⟩ : MenuState) := by
  decide

/-- C10 (amended): for a click on a fragment link outside the nav-links
panel neither the smooth-scroll nor the close-on-click handler runs —
default navigation is not cancelled and no scroll is issued — and the menu
state is unchanged unless the menu is open at mobile width, in which case
the separate document-level outside-click listener closes it. -/
theorem C10_outside_panel_amended (a : Anchor) (width : Int) (doc : String → Option Int)
    (headerHeight : Int) (s : MenuState) (tid : String)
    (hout : a.inNavLinks = false) (hfrag : fragmentTarget a.href = some tid) :
    (clickAnchor a width doc headerHeight s).defaultPrevented = false ∧
    (clickAnchor a width doc headerHeight s).scrolledTo = none ∧
    (¬(width ≤ 768 ∧ s.navActive = true) → (clickAnchor a width doc headerHeight s).menu = s) ∧
    ((width ≤ 768 ∧ s.navActive = true) →
      (clickAnchor a width doc headerHeight s).menu = closeMenu s) := by
  refine ⟨?_, ?_, ?_, ?_⟩
  · simp [clickAnchor, hout]
  · simp [clickAnchor, hout]
  · intro hno
    simp [clickAnchor, hout, hno]
  · intro hyes
    simp [clickAnchor, hout, hyes]

/-- C10 witness: a desktop-width click on an outside fragment link leaves
the closed menu untouched and is not intercepted. -/
theorem C10_outside_panel_amended_witness :
    (clickAnchor ⟨"#menu", false⟩ 1000 (fun _ => none) 80
        ⟨false, false, some "false", ""⟩).menu = (⟨false, false, some "false", ""⟩ : MenuState) :=
  (C10_outside_panel_amended ⟨"#menu", false⟩ 1000 (fun _ => none) 80
      ⟨false, false, some "false", ""⟩ "menu" rfl (by decide)).2.2.1 (by decide)

/-! ## Scroll throttling (src/js/main.js lines 87-96 and 157-163)

Two scroll listeners share the module-level `isScrolling` flag. Listener
one (main.js:88-96) schedules `handleScroll` on the next animation frame
and sets the flag; the frame callback resets it after running. Listener
two (main.js:157-163) checks the same flag but never sets it, and its
frame callback never resets it. Scroll events dispatch listener one then
listener two synchronously (registration order); animation-frame
callbacks run between event dispatches. -/

inductive FrameCb
  | headerCb
  | navCb
deriving DecidableEq

structure LoopState where
  isScrolling : Bool
  pending : List FrameCb
  headerRuns : Nat
  navRuns : Nat
deriving DecidableEq

/-- First scroll listener (main.js:88-96): when no update is pending,
request a frame callback for `handleScroll` and set the flag. -/
def scrollListenerHeader (s : LoopState) : LoopState :=
  if s.isScrolling = true then s
  else { s with pending := s.pending ++ [FrameCb.headerCb], isScrolling := true }

/-- Second scroll listener (main.js:157-163): when no update is pending,
request a frame callback for `updateActiveNav`; the flag is not set. -/
def scrollListenerNav (s : LoopState) : LoopState :=
  if s.isScrolling = true then s
  else { s with pending := s.pending ++ [FrameCb.navCb] }

/-- One scroll event dispatch: both listeners, in registration order. -/
def scrollEvent (s : LoopState) : LoopState :=
  scrollListenerNav (scrollListenerHeader s)

/-- Running one queued frame callback: the `handleScroll` callback
(main.js:90-93) counts a header-style update and resets the flag; the
`updateActiveNav` callback (main.js:159-161) counts an active-nav update
and does not touch the flag. -/
def runCb (s : LoopState) : FrameCb → LoopState
  | FrameCb.headerCb => { s with headerRuns := s.headerRuns + 1, isScrolling := false }
  | FrameCb.navCb => { s with navRuns := s.navRuns + 1 }

/-- One animation frame: all callbacks pending at its start run in order. -/
def runFrame (s : LoopState) : LoopState :=
  s.pending.foldl runCb { s with pending := [] }

inductive BrowserEv
  | scroll
  | frame

def stepEv (s : LoopState) : BrowserEv → LoopState
  | BrowserEv.scroll => scrollEvent s
  | BrowserEv.frame => runFrame s

def runEvents (evs : List BrowserEv) (s : LoopState) : LoopState :=
  evs.foldl stepEv s

/-- Page-load state: flag clear, nothing pending, nothing run. -/
def initLoop : LoopState := ⟨false, [], 0, 0⟩

/-- Listener one always leaves `isScrolling` true behind it (it either
finds it true or sets it), so listener two's guard is always false: a
scroll event is listener one alone. -/
theorem scrollEvent_eq_header (s : LoopState) : scrollEvent s = scrollListenerHeader s := by
  unfold scrollEvent scrollListenerNav scrollListenerHeader
  by_cases h : s.isScrolling = true <;> simp [h]

def noNav (s : LoopState) : Prop :=
  FrameCb.navCb ∉ s.pending ∧ s.navRuns = 0

theorem foldl_runCb_pending (cbs : List FrameCb) (s : LoopState) :
    (cbs.foldl runCb s).pending = s.pending := by
  induction cbs generalizing s with
  | nil => rfl
  | cons c cs ih =>
    rw [List.foldl_cons, ih]
    cases c <;> rfl

theorem foldl_runCb_navRuns (cbs : List FrameCb) (s : LoopState)
    (h : FrameCb.navCb ∉ cbs) : (cbs.foldl runCb s).navRuns = s.navRuns := by
  induction cbs generalizing s with
  | nil => rfl
  | cons c cs ih =>
    simp only [List.mem_cons, not_or] at h
    have hc : (runCb s c).navRuns = s.navRuns := by
      cases c
      · rfl
      · exact absurd rfl h.1
    rw [List.foldl_cons, ih _ h.2, hc]

theorem stepEv_preserves_noNav (s : LoopState) (e : BrowserEv) (h : noNav s) :
    noNav (stepEv s e) := by
  cases e with
  | scroll =>
    have hse : stepEv s BrowserEv.scroll = scrollListenerHeader s := scrollEvent_eq_header s
    rw [hse]
    unfold scrollListenerHeader
    split
    · exact h
    · refine And.intro ?_ h.2
      intro hmem
      rcases List.mem_append.mp hmem with h1 | h2
      · exact h.1 h1
      · exact FrameCb.noConfusion (List.mem_singleton.mp h2)
  | frame =>
    have hp : (s.pending.foldl runCb { s with pending := [] }).pending = [] := by
      rw [foldl_runCb_pending]
    have hn : (s.pending.foldl runCb { s with pending := [] }).navRuns = 0 := by
      rw [foldl_runCb_navRuns s.pending _ h.1]
      exact h.2
    refine And.intro ?_ hn
    show FrameCb.navCb ∉ (s.pending.foldl runCb { s with pending := [] }).pending
    rw [hp]
    simp

theorem runEvents_noNav (evs : List BrowserEv) (s : LoopState) (h : noNav s) :
    noNav (runEvents evs s) := by
  induction evs generalizing s with
  | nil => exact h
  | cons e es ih => exact ih _ (stepEv_preserves_noNav s e h)

/-- C2 (refuting the claimed behavior, which the code's own comments
intend): from the initial state, a scroll event followed by an animation
frame runs the header-style update once but never the active-section
update; indeed over every event sequence `updateActiveNav` runs zero
times, because the first listener sets `isScrolling` before the second
listener's guard is evaluated. -/
theorem C2_nav_highlight_never_runs :
    (runEvents [BrowserEv.scroll, BrowserEv.frame] initLoop).headerRuns = 1 ∧
    (runEvents [BrowserEv.scroll, BrowserEv.frame] initLoop).navRuns = 0 ∧
    ∀ evs : List BrowserEv, (runEvents evs initLoop).navRuns = 0 := by
  refine ⟨by decide, by decide, ?_⟩
  intro evs
  exact (runEvents_noNav evs initLoop ⟨by simp [initLoop], rfl⟩).2

/-! ## Resize debounce (src/js/main.js lines 203-215)

Every resize event runs `clearTimeout(resizeTimer)` and then
`resizeTimer = setTimeout(diagnostic, 250)`. The debounce state is the
list of diagnostic fire times so far plus the pending fire time; a pending
timer whose fire time has passed before the next event has already fired
and cannot be cancelled. -/

/-- One resize event at time `t`: a pending callback that already fired
(fire time ≤ t) is recorded; otherwise `clearTimeout` cancels it; either
way a new callback is scheduled for `t + 250`. -/
def debounceStep (acc : List Nat × Option Nat) (t : Nat) : List Nat × Option Nat :=
  match acc.2 with
  | some ft => if ft ≤ t then (acc.1 ++ [ft], some (t + 250)) else (acc.1, some (t + 250))
  | none => (acc.1, some (t + 250))

/-- Diagnostic fire times over a finite ordered sequence of resize event
times, letting the final pending timer fire. -/
def debounceFires (events : List Nat) : List Nat :=
  match events.foldl debounceStep ([], none) with
  | (fired, some ft) => fired ++ [ft]
  | (fired, none) => fired

theorem debounce_foldl_aux (ts : List Nat) (t0 : Nat) (fired : List Nat)
    (h : List.Chain (fun a b => a ≤ b ∧ b < a + 250) t0 ts) :
    ts.foldl debounceStep (fired, some (t0 + 250)) = (fired, some (ts.getLastD t0 + 250)) := by
  induction ts generalizing t0 with
  | nil => rfl
  | cons t1 ts ih =>
    cases h with
    | cons hr hc =>
      obtain ⟨hle, hlt⟩ := hr
      have hno : ¬(t0 + 250 ≤ t1) := by omega
      have hs : debounceStep (fired, some (t0 + 250)) t1 = (fired, some (t1 + 250)) := by
        simp [debounceStep, hno]
      rw [List.foldl_cons, hs, ih t1 hc, List.getLastD_cons]

/-- C7: each resize event unconditionally replaces the pending callback
(`clearTimeout` then `setTimeout`), so at most one is ever pending; and
for a burst of in-order resize events each arriving less than 250ms after
the previous one, the debounced diagnostic fires exactly once, 250ms after
the last event of the burst. -/
theorem C7_resize_debounce (events : List Nat) (tl : Nat)
    (hlast : events.getLast? = some tl)
    (hburst : events.Chain' fun a b => a ≤ b ∧ b < a + 250) :
    debounceFires events = [tl + 250] ∧
    ∀ acc : List Nat × Option Nat, ∀ t : Nat, (debounceStep acc t).2 = some (t + 250) := by
  constructor
  · cases events with
    | nil => simp at hlast
    | cons t0 ts =>
      have hchain : List.Chain (fun a b => a ≤ b ∧ b < a + 250) t0 ts := hburst
      have htl : ts.getLastD t0 = tl := by
        rw [List.getLast?_cons] at hlast
        rw [List.getLastD_eq_getLast?]
        simpa using hlast
      have h0 : debounceStep ([], none) t0 = ([], some (t0 + 250)) := rfl
      unfold debounceFires
      rw [List.foldl_cons, h0, debounce_foldl_aux ts t0 [] hchain, htl]
      rfl
  · intro acc t
    rcases acc with ⟨f, p⟩
    cases p with
    | none => rfl
    | some ft =>
      by_cases hf : ft ≤ t <;> simp [debounceStep, hf]

/-- C7 witness: three resize events 100ms apart fire the diagnostic once,
at 450 = 200 + 250. -/
theorem C7_resize_debounce_witness : debounceFires [0, 100, 200] = [450] :=
  (C7_resize_debounce [0, 100, 200] 200 (by decide)
    (by exact List.Chain.cons (by decide) (List.Chain.cons (by decide) List.Chain.nil))).1
